import Mathlib

/-!
Shallow embedding of the Resumify token/plan accounting logic and the routes
built on it (src/models.py and src/app.py).

Timestamps are modelled as integer seconds; the number of whole days between
two timestamps is floor division by 86400, matching Python timedelta.days.
The external AI completion service is modelled as an oracle value of type
Option String: some content for a 200 response, none for a failure, a timeout
or a non-200 status. The free template set comes from config.py and is passed
as an explicit parameter, as in the quota-policy description.
-/

/-- Account record, following the User model in models.py. -/
structure User where
  id : Nat
  username : String
  email : String
  password : String
  first_name : String
  last_name : String
  plan : String
  tokens : Int
  last_token_reset : Option Int
  last_generated : Option Int
deriving DecidableEq, Repr

/-- Resume record, following the Resume model in models.py. -/
structure Resume where
  id : Nat
  user_id : Nat
  name : String
  profession : String
  email : String
  phone : String
  linkedin : String
  bio : String
  skills : String
  job_title : String
  company : String
  job_desc : String
  degree : String
  institute : String
  grad_year : String
  profile_pic_url : Option String
  template : String
  timestamp : Int
deriving DecidableEq, Repr

/-- Append-only ledger entry, following the Purchase model in models.py. -/
structure Purchase where
  user_id : Nat
  amount : Int
  description : String
  timestamp : Int
deriving DecidableEq, Repr

/-- Error taxonomy of the request handlers in app.py. -/
inductive AppError where
  | TemplateNotAllowed
  | OutOfTokens
  | InvalidPlan
  | InvalidTokenPack
  | Unauthorized
  | NotFound
deriving DecidableEq, Repr

/-- Plan helper User.is_free_user. -/
def User.is_free_user (u : User) : Bool := u.plan == "free"

/-- Plan helper User.is_pro_user. -/
def User.is_pro_user (u : User) : Bool := u.plan == "pro"

/-- Plan helper User.is_ultimate_user. -/
def User.is_ultimate_user (u : User) : Bool := u.plan == "ultimate"

/-- User.has_tokens: the user has tokens left or an unlimited plan. -/
def User.has_tokens (u : User) : Bool :=
  decide (u.tokens > 0) || u.is_ultimate_user

/-- User.deduct_token: deduct a token unless ultimate user. -/
def User.deduct_token (u : User) : User :=
  if !u.is_ultimate_user then { u with tokens := max 0 (u.tokens - 1) } else u

/-- Whole days between two timestamps in seconds, as Python timedelta.days
(floor division, and Int division by a positive literal is floor division). -/
def daysBetween (later earlier : Int) : Int := (later - earlier) / 86400

/-- Guard of User.reset_tokens_if_needed: a missing last_token_reset or an
elapsed gap of at least one whole day. -/
def resetDue (u : User) (now : Int) : Bool :=
  match u.last_token_reset with
  | none => true
  | some t => decide (1 ≤ daysBetween now t)

/-- User.reset_tokens_if_needed: reset daily tokens based on plan type, at most
once every 24h; ultimate users keep their balance but the stamp is refreshed. -/
def User.reset_tokens_if_needed (u : User) (now : Int) : User :=
  if resetDue u now then
    let u1 := if u.is_free_user then { u with tokens := 3 }
              else if u.is_pro_user then { u with tokens := 15 }
              else u
    { u1 with last_token_reset := some now }
  else u

/-- Python str.strip: drop leading and trailing whitespace. -/
def strip (s : String) : String :=
  String.mk (((s.data.dropWhile Char.isWhitespace).reverse.dropWhile
    Char.isWhitespace).reverse)

/-- Python str.split on a comma. -/
def splitCommas (s : String) : List String :=
  (s.data.splitOn ',').map String.mk

/-- Skills parsing in the generate route: strip each comma-separated part and
keep the nonempty ones. -/
def parseSkills (s : String) : List String :=
  ((splitCommas s).map strip).filter (fun x => x ≠ "")

/-- Deterministic fallback sentence of generate_bio in app.py. -/
def fallback_bio (name profession skills : String) : String :=
  "I'm " ++ (name ++ (", a " ++ (profession ++ (" skilled in " ++ (skills ++
    ", blending creativity and logic to craft meaningful work.")))))

/-- generate_bio in app.py: the AI text when the external call returned a 200
response with nonempty content, the fallback sentence otherwise; the Python
or-expression sends an empty AI answer to the fallback as well. -/
def generate_bio (ai : Option String) (name profession skills : String) : String :=
  match ai with
  | some s => if s = "" then fallback_bio name profession skills else s
  | none => fallback_bio name profession skills

/-- Submitted form fields of the generate route, with the defaults of form.get
already applied (template defaults to classic, the rest to the empty string). -/
structure GenForm where
  template : String
  name : String
  profession : String
  email : String
  phone : String
  linkedin : String
  bio : String
  skills : String
  job_title : String
  company : String
  job_desc : String
  degree : String
  institute : String
  grad_year : String
deriving DecidableEq, Repr

/-- The generate route (app.py): token reset, premium-template gate, token
gate, bio selection, resume insert, token deduction and last_generated stamp.
The returned state reflects that the reset of step 1 is committed even when a
later gate rejects the request. -/
def generate (u : User) (store : List Resume) (form : GenForm)
    (pic_url : Option String) (ai : Option String) (now : Int) (next_id : Nat)
    (free_templates : List String) : User × List Resume × Option AppError :=
  let u1 := u.reset_tokens_if_needed now
  let is_premium := !(free_templates.contains form.template)
  if is_premium && !(u1.is_pro_user || u1.is_ultimate_user) then
    (u1, store, some AppError.TemplateNotAllowed)
  else if !u1.has_tokens then
    (u1, store, some AppError.OutOfTokens)
  else
    let skills := parseSkills form.skills
    let bio :=
      if strip form.bio ≠ "" then strip form.bio
      else generate_bio ai form.name form.profession (String.intercalate ", " skills)
    let resume : Resume :=
      { id := next_id
        user_id := u1.id
        name := form.name
        profession := form.profession
        email := form.email
        phone := form.phone
        linkedin := form.linkedin
        bio := bio
        skills := String.intercalate "," skills
        job_title := form.job_title
        company := form.company
        job_desc := form.job_desc
        degree := form.degree
        institute := form.institute
        grad_year := form.grad_year
        profile_pic_url := pic_url
        template := form.template
        timestamp := now }
    let u2 := { u1.deduct_token with last_generated := some now }
    (u2, store ++ [resume], none)

/-- Fixed price table of the buy_token route; 0 encodes the default of the
Python dict lookup price_map.get(count, 0). -/
def price_map (count : Nat) : Int :=
  if count = 1 then 50 else if count = 5 then 100 else 0

/-- The buy_token route: an unknown pack is rejected with no mutation, a known
pack adds the tokens and appends one ledger entry at the table price. -/
def buy_token (u : User) (ledger : List Purchase) (count : Nat) (now : Int) :
    User × List Purchase × Option AppError :=
  let amount := price_map count
  if amount = 0 then (u, ledger, some AppError.InvalidTokenPack)
  else
    ({ u with tokens := u.tokens + (count : Int) },
     ledger ++ [{ user_id := u.id, amount := amount,
                  description := toString count ++ " Token Pack", timestamp := now }],
     none)

/-- The upgrade route: pro adds 15 tokens, ultimate sets the 9999 sentinel,
anything else is rejected with no mutation. -/
def upgrade (u : User) (ledger : List Purchase) (plan : String) (now : Int) :
    User × List Purchase × Option AppError :=
  if plan = "pro" then
    ({ u with tokens := u.tokens + 15, plan := "pro" },
     ledger ++ [{ user_id := u.id, amount := 199, description := "Pro Pack",
                  timestamp := now }],
     none)
  else if plan = "ultimate" then
    ({ u with tokens := 9999, plan := "ultimate" },
     ledger ++ [{ user_id := u.id, amount := 499, description := "Ultimate Pack",
                  timestamp := now }],
     none)
  else (u, ledger, some AppError.InvalidPlan)

/-- Primary-key lookup Resume.query.get(resume_id). -/
def findResume (store : List Resume) (rid : Nat) : Option Resume :=
  store.find? (fun r => r.id == rid)

/-- The delete_resume route: 404 when the id is absent, Unauthorized when the
row is not owned by the caller, otherwise the row is removed; the resulting
store is returned in every case. -/
def delete_resume (caller : User) (store : List Resume) (rid : Nat) :
    List Resume × Option AppError :=
  match findResume store rid with
  | none => (store, some AppError.NotFound)
  | some r =>
    if r.user_id ≠ caller.id then (store, some AppError.Unauthorized)
    else (store.filter (fun x => x.id ≠ rid), none)

/-- Account creation in the register route: tokens=3, plan=free, with the
column default datetime.utcnow for last_token_reset from models.py. -/
def register_user (uid : Nat) (username first_name last_name email password : String)
    (now : Int) : User :=
  { id := uid, username := username, email := email, password := password,
    first_name := first_name, last_name := last_name,
    plan := "free", tokens := 3, last_token_reset := some now,
    last_generated := none }

/-- Repeated application of the upgrade route with plan pro. -/
def upgrade_pro_n (now : Int) : Nat → User × List Purchase → User × List Purchase
  | 0, s => s
  | n + 1, (u, l) =>
    match upgrade u l "pro" now with
    | (u1, l1, none) => upgrade_pro_n now n (u1, l1)
    | (_, _, some _) => (u, l)

/-- Substring containment, on the underlying character lists. -/
def ContainsStr (needle hay : String) : Prop :=
  List.IsInfix needle.data hay.data

instance (needle hay : String) : Decidable (ContainsStr needle hay) := by
  unfold ContainsStr
  infer_instance

/-- Concrete free account with 3 tokens, used by the concrete instantiations. -/
def uFree3 : User :=
  { id := 1, username := "ada.l", email := "ada@example.com", password := "pw",
    first_name := "Ada", last_name := "L", plan := "free", tokens := 3,
    last_token_reset := some 0, last_generated := none }

/-- C5: has_tokens holds exactly when tokens > 0 or the plan is ultimate, and
every ultimate account has tokens at any balance, including 0. -/
theorem C5_has_tokens (u : User) :
    (u.has_tokens = true ↔ (0 < u.tokens ∨ u.plan = "ultimate")) ∧
    (u.plan = "ultimate" → ∀ t : Int,
      ({ u with tokens := t } : User).has_tokens = true) := by
  constructor
  · simp [User.has_tokens, User.is_ultimate_user]
  · intro h t
    simp [User.has_tokens, User.is_ultimate_user, h]

/-- Helper: deduction never makes a nonnegative balance negative. -/
theorem deduct_token_nonneg (v : User) (h : 0 ≤ v.tokens) :
    0 ≤ v.deduct_token.tokens := by
  by_cases hp : v.plan = "ultimate"
  · simp [User.deduct_token, User.is_ultimate_user, hp, h]
  · simp [User.deduct_token, User.is_ultimate_user, hp]

/-- C4: deduct_token clamps the balance at max 0 (tokens - 1) for non-ultimate
plans, leaves ultimate accounts unchanged, and never yields a negative balance. -/
theorem C4_deduct_token (u : User) (h : 0 ≤ u.tokens) :
    (u.plan ≠ "ultimate" →
      u.deduct_token = { u with tokens := max 0 (u.tokens - 1) }) ∧
    (u.plan = "ultimate" → u.deduct_token = u) ∧
    0 ≤ u.deduct_token.tokens := by
  refine ⟨?_, ?_, ?_⟩
  · intro hp
    simp [User.deduct_token, User.is_ultimate_user, hp]
  · intro hp
    simp [User.deduct_token, User.is_ultimate_user, hp]
  · exact deduct_token_nonneg u h

/-- C4 witness: the clamp and nonnegativity at a free account with 3 tokens. -/
theorem C4_deduct_token_witness :
    uFree3.deduct_token = { uFree3 with tokens := 2 } ∧
    0 ≤ uFree3.deduct_token.tokens := by
  have h := C4_deduct_token uFree3 (by decide)
  refine ⟨(h.1 (by decide)).trans (by decide), h.2.2⟩

/-- C2: every token-mutating operation of the system preserves a nonnegative
balance: the daily reset, token deduction, token purchase at any count,
upgrade to any plan, and registration. -/
theorem C2_tokens_nonneg (u : User) (now : Int) (ledger : List Purchase)
    (h : 0 ≤ u.tokens) :
    0 ≤ (u.reset_tokens_if_needed now).tokens ∧
    0 ≤ u.deduct_token.tokens ∧
    (∀ count : Nat, 0 ≤ (buy_token u ledger count now).1.tokens) ∧
    (∀ p : String, 0 ≤ (upgrade u ledger p now).1.tokens) ∧
    0 ≤ (register_user 2 "u" "f" "l" "e" "p" now).tokens := by
  refine ⟨?_, deduct_token_nonneg u h, ?_, ?_, by norm_num [register_user]⟩
  · unfold User.reset_tokens_if_needed
    split
    · by_cases hf : u.is_free_user = true
      · simp [hf]
      · by_cases hp : u.is_pro_user = true
        · simp [hf, hp]
        · simp [hf, hp, h]
    · exact h
  · intro count
    by_cases hc : price_map count = 0
    · simpa [buy_token, hc] using h
    · simp only [buy_token, hc, if_neg hc]
      show 0 ≤ u.tokens + (count : Int)
      omega
  · intro p
    by_cases hp : p = "pro"
    · simp only [upgrade, hp, if_pos rfl]
      show 0 ≤ u.tokens + 15
      omega
    · by_cases hu : p = "ultimate"
      · subst hu
        simp only [upgrade, if_neg (by decide : ¬ ("ultimate" = "pro")), if_pos rfl]
        show (0 : Int) ≤ 9999
        norm_num
      · simpa [upgrade, hp, hu] using h

/-- C2 witness: nonnegativity after reset, deduction, a purchase and an
upgrade at a free account with 3 tokens. -/
theorem C2_tokens_nonneg_witness :
    0 ≤ (uFree3.reset_tokens_if_needed 0).tokens ∧
    0 ≤ uFree3.deduct_token.tokens ∧
    0 ≤ (buy_token uFree3 [] 1 0).1.tokens ∧
    0 ≤ (upgrade uFree3 [] "pro" 0).1.tokens := by
  have h := C2_tokens_nonneg uFree3 0 [] (by decide)
  exact ⟨h.1, h.2.1, h.2.2.1 1, h.2.2.2.1 "pro"⟩

/-- Helper: with a recorded last reset, the reset guard fires exactly when at
least 86400 seconds elapsed. -/
theorem resetDue_some (v : User) (now t : Int) (h : v.last_token_reset = some t) :
    resetDue v now = true ↔ 86400 ≤ now - t := by
  simp only [resetDue, h, daysBetween, decide_eq_true_eq]
  omega

/-- Helper: no reset happens within a day of the recorded last reset. -/
theorem reset_noop_within_day (v : User) (now t : Int)
    (h : v.last_token_reset = some t) (hlt : now - t < 86400) :
    v.reset_tokens_if_needed now = v := by
  have hd : resetDue v now = false := by
    cases hb : resetDue v now
    · rfl
    · exact absurd ((resetDue_some v now t h).mp hb) (by omega)
  simp [User.reset_tokens_if_needed, hd]

/-- Helper: whenever the guard fires, the reset stamps last_token_reset. -/
theorem reset_stamps (v : User) (now : Int) (hd : resetDue v now = true) :
    (v.reset_tokens_if_needed now).last_token_reset = some now := by
  simp [User.reset_tokens_if_needed, hd]

/-- C3: with at least one elapsed day the reset sets the plan allotment (3 for
free, 15 for pro, balance unchanged for ultimate) and stamps last_token_reset;
within the day window it changes nothing; and after a reset fires, a second
call within a day of it is a no-op. -/
theorem C3_reset_tokens (u : User) (now t : Int) (ht : u.last_token_reset = some t) :
    (86400 ≤ now - t →
      (u.plan = "free" →
        u.reset_tokens_if_needed now =
          { u with tokens := 3, last_token_reset := some now }) ∧
      (u.plan = "pro" →
        u.reset_tokens_if_needed now =
          { u with tokens := 15, last_token_reset := some now }) ∧
      (u.plan = "ultimate" →
        u.reset_tokens_if_needed now = { u with last_token_reset := some now })) ∧
    (now - t < 86400 → u.reset_tokens_if_needed now = u) ∧
    (86400 ≤ now - t → ∀ now2 : Int, now2 - now < 86400 →
      (u.reset_tokens_if_needed now).reset_tokens_if_needed now2 =
        u.reset_tokens_if_needed now) := by
  refine ⟨?_, reset_noop_within_day u now t ht, ?_⟩
  · intro hge
    have hd : resetDue u now = true := (resetDue_some u now t ht).mpr hge
    refine ⟨?_, ?_, ?_⟩
    · intro hp
      simp [User.reset_tokens_if_needed, hd, User.is_free_user, hp]
    · intro hp
      simp [User.reset_tokens_if_needed, hd, User.is_free_user, User.is_pro_user, hp]
    · intro hp
      simp [User.reset_tokens_if_needed, hd, User.is_free_user, User.is_pro_user, hp]
  · intro hge now2 hlt
    have hd : resetDue u now = true := (resetDue_some u now t ht).mpr hge
    exact reset_noop_within_day _ now2 now (reset_stamps u now hd) hlt

/-- C3 witness: at a free account last reset at 0, a call at 86400 resets to 3
tokens and stamps, a call at 100 changes nothing, and a second call at 90000
after the reset at 86400 is a no-op. -/
theorem C3_reset_tokens_witness :
    uFree3.reset_tokens_if_needed 86400 =
      { uFree3 with tokens := 3, last_token_reset := some 86400 } ∧
    uFree3.reset_tokens_if_needed 100 = uFree3 ∧
    (uFree3.reset_tokens_if_needed 86400).reset_tokens_if_needed 90000 =
      uFree3.reset_tokens_if_needed 86400 := by
  have h := C3_reset_tokens uFree3 86400 0 rfl
  have h100 := C3_reset_tokens uFree3 100 0 rfl
  exact ⟨(h.1 (by norm_num)).1 rfl, h100.2.1 (by norm_num),
    h.2.2 (by norm_num) 90000 (by norm_num)⟩

/-- C6: buying a pack listed in the price table adds exactly that many tokens
and appends one ledger entry at the table price; any other count is rejected
with InvalidTokenPack and leaves the tokens and the ledger unchanged. -/
theorem C6_buy_token (u : User) (ledger : List Purchase) (now : Int) :
    buy_token u ledger 1 now =
      ({ u with tokens := u.tokens + 1 },
       ledger ++ [{ user_id := u.id, amount := 50, description := "1 Token Pack",
                    timestamp := now }], none) ∧
    buy_token u ledger 5 now =
      ({ u with tokens := u.tokens + 5 },
       ledger ++ [{ user_id := u.id, amount := 100, description := "5 Token Pack",
                    timestamp := now }], none) ∧
    (∀ count : Nat, count ≠ 1 → count ≠ 5 →
      buy_token u ledger count now = (u, ledger, some AppError.InvalidTokenPack)) := by
  refine ⟨rfl, rfl, ?_⟩
  intro count h1 h5
  have hc : price_map count = 0 := by simp [price_map, h1, h5]
  simp [buy_token, hc]

/-- C6 witness: the unknown pack 3 is rejected without mutation and pack 1
adds one token with a 50-priced ledger entry, at a free account with 3 tokens. -/
theorem C6_buy_token_witness :
    buy_token uFree3 [] 3 0 = (uFree3, [], some AppError.InvalidTokenPack) ∧
    buy_token uFree3 [] 1 0 =
      ({ uFree3 with tokens := 4 },
       [{ user_id := 1, amount := 50, description := "1 Token Pack",
          timestamp := 0 }], none) := by
  constructor
  · exact (C6_buy_token uFree3 [] 0).2.2 3 (by decide) (by decide)
  · exact ((C6_buy_token uFree3 [] 0).1).trans (by decide)

/-- C7: upgrading to pro adds 15 tokens, sets the plan to pro and appends one
ledger entry of amount 199; upgrading to ultimate sets the 9999 sentinel, the
ultimate plan and appends one entry of amount 499; any other plan string is
rejected with InvalidPlan and mutates neither the account nor the ledger. -/
theorem C7_upgrade (u : User) (ledger : List Purchase) (now : Int) :
    upgrade u ledger "pro" now =
      ({ u with tokens := u.tokens + 15, plan := "pro" },
       ledger ++ [{ user_id := u.id, amount := 199, description := "Pro Pack",
                    timestamp := now }], none) ∧
    upgrade u ledger "ultimate" now =
      ({ u with tokens := 9999, plan := "ultimate" },
       ledger ++ [{ user_id := u.id, amount := 499, description := "Ultimate Pack",
                    timestamp := now }], none) ∧
    (∀ p : String, p ≠ "pro" → p ≠ "ultimate" →
      upgrade u ledger p now = (u, ledger, some AppError.InvalidPlan)) := by
  refine ⟨rfl, by simp [upgrade], ?_⟩
  intro p h1 h2
  simp [upgrade, h1, h2]

/-- C7 witness: an invalid plan string is rejected without mutation and a pro
upgrade adds 15 tokens and a 199-priced ledger entry, at a free account. -/
theorem C7_upgrade_witness :
    upgrade uFree3 [] "mega" 0 = (uFree3, [], some AppError.InvalidPlan) ∧
    upgrade uFree3 [] "pro" 0 =
      ({ uFree3 with tokens := 18, plan := "pro" },
       [{ user_id := 1, amount := 199, description := "Pro Pack",
          timestamp := 0 }], none) := by
  constructor
  · exact (C7_upgrade uFree3 [] 0).2.2 "mega" (by decide) (by decide)
  · exact ((C7_upgrade uFree3 [] 0).1).trans (by decide)

/-- C8: deleting a resume whose owner differs from the caller signals
Unauthorized and returns the store unchanged, so the row stays intact. -/
theorem C8_delete_unauthorized (caller : User) (store : List Resume) (rid : Nat)
    (r : Resume) (hfind : findResume store rid = some r)
    (hown : r.user_id ≠ caller.id) :
    delete_resume caller store rid = (store, some AppError.Unauthorized) := by
  simp [delete_resume, hfind, hown]

/-- Concrete resume owned by account 2, used by the concrete instantiations. -/
def cexResume : Resume :=
  { id := 10, user_id := 2, name := "Bob", profession := "Chef", email := "",
    phone := "", linkedin := "", bio := "b", skills := "", job_title := "",
    company := "", job_desc := "", degree := "", institute := "", grad_year := "",
    profile_pic_url := none, template := "classic", timestamp := 0 }

/-- C8 witness: account 1 deleting the resume of account 2 is rejected and the
store still holds the row. -/
theorem C8_delete_unauthorized_witness :
    delete_resume uFree3 [cexResume] 10 = ([cexResume], some AppError.Unauthorized) :=
  C8_delete_unauthorized uFree3 [cexResume] 10 cexResume (by decide) (by decide)

/-- C10: the pro upgrade is unconditional in the current plan; on an ultimate
account with the 9999 sentinel it downgrades the plan to pro with 10014 tokens,
and n repeated pro upgrades add 15 tokens and one ledger entry each. -/
theorem C10_upgrade_pro_unconditional (u : User) (ledger : List Purchase)
    (now : Int) (n : Nat) (hu : u.plan = "ultimate") (ht : u.tokens = 9999) :
    (∀ (v : User) (l2 : List Purchase),
      upgrade v l2 "pro" now =
        ({ v with tokens := v.tokens + 15, plan := "pro" },
         l2 ++ [{ user_id := v.id, amount := 199, description := "Pro Pack",
                  timestamp := now }], none)) ∧
    ((upgrade u ledger "pro" now).1.plan = "pro" ∧
     (upgrade u ledger "pro" now).1.plan ≠ u.plan ∧
     (upgrade u ledger "pro" now).1.tokens = 10014 ∧
     (upgrade u ledger "pro" now).2.1.length = ledger.length + 1) ∧
    (∀ (v : User) (l2 : List Purchase),
      (upgrade_pro_n now n (v, l2)).1.tokens = v.tokens + 15 * n ∧
      (upgrade_pro_n now n (v, l2)).2.length = l2.length + n) := by
  refine ⟨fun v l2 => rfl,
    ⟨rfl, by simp [upgrade, hu], by simp [upgrade, ht], by simp [upgrade]⟩, ?_⟩
  induction n with
  | zero => intro v l2; simp [upgrade_pro_n]
  | succ m ih =>
    intro v l2
    have step : upgrade_pro_n now (m + 1) (v, l2) =
        upgrade_pro_n now m
          ({ v with tokens := v.tokens + 15, plan := "pro" },
           l2 ++ [{ user_id := v.id, amount := 199, description := "Pro Pack",
                    timestamp := now }]) := by
      simp [upgrade_pro_n, upgrade]
    rw [step]
    have h2 := ih { v with tokens := v.tokens + 15, plan := "pro" }
      (l2 ++ [{ user_id := v.id, amount := 199, description := "Pro Pack",
                timestamp := now }])
    constructor
    · rw [h2.1]; push_cast; ring
    · rw [h2.2]; simp; omega

/-- Concrete ultimate account with the 9999 sentinel. -/
def uUlt : User := { uFree3 with plan := "ultimate", tokens := 9999 }

/-- C10 witness: a pro upgrade on the concrete ultimate account yields plan pro
with 10014 tokens and one ledger entry, and two repeated upgrades add 30. -/
theorem C10_upgrade_pro_unconditional_witness :
    (upgrade uUlt [] "pro" 0).1.plan = "pro" ∧
    (upgrade uUlt [] "pro" 0).1.plan ≠ uUlt.plan ∧
    (upgrade uUlt [] "pro" 0).1.tokens = 10014 ∧
    (upgrade_pro_n 0 2 (uUlt, [])).1.tokens = 9999 + 15 * 2 ∧
    (upgrade_pro_n 0 2 (uUlt, [])).2.length = 2 := by
  have h := C10_upgrade_pro_unconditional uUlt [] 0 2 rfl rfl
  exact ⟨h.2.1.1, h.2.1.2.1, h.2.1.2.2.1, (h.2.2 uUlt []).1,
    by simpa using (h.2.2 uUlt []).2⟩

/-- Helper: the daily reset never changes the account id. -/
theorem reset_id (v : User) (now : Int) :
    (v.reset_tokens_if_needed now).id = v.id := by
  unfold User.reset_tokens_if_needed
  split
  · split
    · rfl
    · split <;> rfl
  · rfl

/-- Helper: the daily reset never changes the plan. -/
theorem reset_plan (v : User) (now : Int) :
    (v.reset_tokens_if_needed now).plan = v.plan := by
  unfold User.reset_tokens_if_needed
  split
  · split
    · rfl
    · split <;> rfl
  · rfl

/-- Helper: on a free account holding exactly the daily allotment of 3, the
reset leaves the balance at 3 whether or not it fires. -/
theorem reset_free_tokens (v : User) (now : Int) (hp : v.plan = "free")
    (ht : v.tokens = 3) : (v.reset_tokens_if_needed now).tokens = 3 := by
  unfold User.reset_tokens_if_needed
  have hf : v.is_free_user = true := by simp [User.is_free_user, hp]
  split
  · simp [hf]
  · exact ht

/-- Helper: deduction never changes the account id. -/
theorem deduct_id (v : User) : v.deduct_token.id = v.id := by
  unfold User.deduct_token
  split <;> rfl

/-- Helper: string append acts on the underlying character lists by append. -/
theorem data_append (s t : String) : (s ++ t).data = s.data ++ t.data := rfl

/-- Helper: the fallback sentence contains the name, profession and skills. -/
theorem fallback_bio_contains (name profession skills : String) :
    ContainsStr name (fallback_bio name profession skills) ∧
    ContainsStr profession (fallback_bio name profession skills) ∧
    ContainsStr skills (fallback_bio name profession skills) := by
  refine ⟨⟨"I'm ".data, (", a " ++ (profession ++ (" skilled in " ++ (skills ++
      ", blending creativity and logic to craft meaningful work.")))).data, ?_⟩,
    ⟨("I'm " ++ (name ++ ", a ")).data, (" skilled in " ++ (skills ++
      ", blending creativity and logic to craft meaningful work.")).data, ?_⟩,
    ⟨("I'm " ++ (name ++ (", a " ++ (profession ++ " skilled in ")))).data,
      (", blending creativity and logic to craft meaningful work.").data, ?_⟩⟩ <;>
    simp [fallback_bio, data_append, List.append_assoc]

/-- C9: when the external AI call fails, times out or answers with a non-200
status, generate_bio returns the deterministic fallback sentence built from
the same fields, which contains the name, the profession and the skills; no
error is produced, as generate_bio is total. -/
theorem C9_bio_external_failure (name profession skills : String) :
    generate_bio none name profession skills =
      fallback_bio name profession skills ∧
    ContainsStr name (generate_bio none name profession skills) ∧
    ContainsStr profession (generate_bio none name profession skills) ∧
    ContainsStr skills (generate_bio none name profession skills) := by
  have h := fallback_bio_contains name profession skills
  exact ⟨rfl, h.1, h.2.1, h.2.2⟩

/-- Helper: the bio chosen by the generate route is the stripped nonempty user
bio, a nonempty AI answer, or the fallback sentence containing the name. -/
theorem bio_cases (ai : Option String) (n p sk bio0 : String) :
    ((strip bio0 ≠ "" ∧
      (if strip bio0 ≠ "" then strip bio0 else generate_bio ai n p sk) = strip bio0) ∨
     (∃ s, ai = some s ∧ s ≠ "" ∧
      (if strip bio0 ≠ "" then strip bio0 else generate_bio ai n p sk) = s) ∨
     ((if strip bio0 ≠ "" then strip bio0 else generate_bio ai n p sk) =
        fallback_bio n p sk ∧
      ContainsStr n (if strip bio0 ≠ "" then strip bio0 else generate_bio ai n p sk))) := by
  by_cases hb : strip bio0 ≠ ""
  · exact Or.inl ⟨hb, if_pos hb⟩
  · rw [if_neg hb]
    cases ai with
    | none => exact Or.inr (Or.inr ⟨rfl, (fallback_bio_contains n p sk).1⟩)
    | some s =>
      by_cases hs : s = ""
      · subst hs
        exact Or.inr (Or.inr ⟨by simp [generate_bio],
          by simpa [generate_bio] using (fallback_bio_contains n p sk).1⟩)
      · exact Or.inr (Or.inl ⟨s, rfl, hs, by simp [generate_bio, hs]⟩)

/-- C1 (amended): a free account with 3 tokens generating with a template from
the free set succeeds with no error: the balance becomes 2, last_generated is
stamped, exactly one resume owned by the account is appended, and its bio is
the stripped nonempty user bio, a nonempty AI answer, or the fallback sentence
containing the given name. -/
theorem C1_free_generation (u : User) (store : List Resume) (form : GenForm)
    (pic : Option String) (ai : Option String) (now : Int) (next_id : Nat)
    (free_templates : List String) (hplan : u.plan = "free") (htok : u.tokens = 3)
    (htmpl : form.template ∈ free_templates) :
    ∃ u2 r, generate u store form pic ai now next_id free_templates =
        (u2, store ++ [r], none) ∧
      u2.tokens = 2 ∧ u2.id = u.id ∧ u2.last_generated = some now ∧
      r.user_id = u.id ∧
      ((strip form.bio ≠ "" ∧ r.bio = strip form.bio) ∨
       (∃ s, ai = some s ∧ s ≠ "" ∧ r.bio = s) ∨
       (r.bio = fallback_bio form.name form.profession
          (String.intercalate ", " (parseSkills form.skills)) ∧
        ContainsStr form.name r.bio)) := by
  have h1plan : (u.reset_tokens_if_needed now).plan = "free" :=
    (reset_plan u now).trans hplan
  have h1tok : (u.reset_tokens_if_needed now).tokens = 3 :=
    reset_free_tokens u now hplan htok
  have h1id : (u.reset_tokens_if_needed now).id = u.id := reset_id u now
  have hc : free_templates.contains form.template = true := by
    simpa using htmpl
  have hht : (u.reset_tokens_if_needed now).has_tokens = true := by
    simp [User.has_tokens, h1tok]
  have hnu : (u.reset_tokens_if_needed now).is_ultimate_user = false := by
    simp [User.is_ultimate_user, h1plan]
  have hdt : (u.reset_tokens_if_needed now).deduct_token.tokens = 2 := by
    simp [User.deduct_token, hnu, h1tok]
  unfold generate
  simp only [hc, Bool.not_true, Bool.false_and, Bool.false_eq_true, if_false, hht]
  refine ⟨_, _, rfl, hdt, (deduct_id _).trans h1id, rfl, h1id, ?_⟩
  exact bio_cases ai form.name form.profession
    (String.intercalate ", " (parseSkills form.skills)) form.bio

/-- Concrete generate form: empty user bio, name Ada, free-set template. -/
def cexForm : GenForm :=
  { template := "classic", name := "Ada", profession := "Engineer",
    email := "", phone := "", linkedin := "", bio := "", skills := "python",
    job_title := "", company := "", job_desc := "", degree := "", institute := "",
    grad_year := "", }

/-- C1 counterexample: on a free account with 3 tokens, a free-set template and
an empty user bio, a successful external AI call makes the workflow succeed
with the AI text as the persisted bio, which is neither the user-supplied bio
text nor a fallback string containing the given name. -/
theorem C1_bio_counterexample :
    (generate uFree3 [] cexForm none (some "Hello world.") 0 10 ["classic"]).2.2
        = none ∧
    (generate uFree3 [] cexForm none (some "Hello world.") 0 10 ["classic"]).1.tokens
        = 2 ∧
    (generate uFree3 [] cexForm none (some "Hello world.") 0 10 ["classic"]).2.1.map
        Resume.bio = ["Hello world."] ∧
    cexForm.bio = "" ∧
    "Hello world." ≠ cexForm.bio ∧
    "Hello world." ≠ strip cexForm.bio ∧
    ¬ ContainsStr cexForm.name "Hello world." := by
  exact ⟨by decide, by decide, by decide, by decide, by decide, by decide, by decide⟩

/-- C1 witness: the amended claim instantiated at the concrete free account,
form and a failed AI call. -/
theorem C1_free_generation_witness :
    uFree3.plan = "free" ∧ uFree3.tokens = 3 ∧ cexForm.template ∈ ["classic"] ∧
    (∃ u2 r, generate uFree3 [] cexForm none none 0 10 ["classic"] =
        (u2, [] ++ [r], none) ∧
      u2.tokens = 2 ∧ u2.id = uFree3.id ∧ u2.last_generated = some 0 ∧
      r.user_id = uFree3.id ∧
      ((strip cexForm.bio ≠ "" ∧ r.bio = strip cexForm.bio) ∨
       (∃ s, (none : Option String) = some s ∧ s ≠ "" ∧ r.bio = s) ∨
       (r.bio = fallback_bio cexForm.name cexForm.profession
          (String.intercalate ", " (parseSkills cexForm.skills)) ∧
        ContainsStr cexForm.name r.bio))) :=
  ⟨rfl, rfl, by decide,
    C1_free_generation uFree3 [] cexForm none none 0 10 ["classic"] rfl rfl
      (by decide)⟩

/-- C5 witness: has_tokens holds at the concrete free account with 3 tokens
and at an ultimate account with zero tokens. -/
theorem C5_has_tokens_witness :
    uFree3.has_tokens = true ∧
    ({ uUlt with tokens := 0 } : User).has_tokens = true :=
  ⟨(C5_has_tokens uFree3).1.mpr (Or.inl (by decide)),
   (C5_has_tokens uUlt).2 rfl 0⟩
